import Mathlib

/-!
Verification of the inference-orchestration and session-state layer of the
malaria detection / forecasting application (`src/app.py`).

The Python source is shallowly embedded: Streamlit `session_state`
dictionaries become explicit state records, button handlers become pure
state-transition functions, Python dict lookups (which raise `KeyError` on a
missing key, caught by the surrounding `try`/`except`) become
`Option`-returning lookups, and Python's `int()` (truncation toward zero) is
modelled by `pyInt`.  Float values are carried as exact rationals; properties
that are robust to rounding are proved over the exact arithmetic, while the
post-processor value claims, which hinge on the computed number itself, are
settled against an explicit IEEE-754 binary64 rounding model
(`float64_round` below).
-/

/-! ## Forecast feature encoder (app.py lines 862-895) -/

/-- The country list of the `st.selectbox("🌍 Pays", ...)` widget (line 862). -/
def countries : List String :=
  ["Senegal", "Mali", "Guinea", "Ivory Coast", "Burkina Faso"]

/-- The `city_options` dict (lines 864-870), modelled as an association list. -/
def city_options : List (String × List String) :=
  [ ("Senegal", ["Dakar", "Thies", "Saint-Louis", "Ziguinchor"]),
    ("Mali", ["Bamako", "Sikasso", "Kayes", "Mopti"]),
    ("Guinea", ["Conakry", "Nzerekore", "Kindia", "Labe"]),
    ("Ivory Coast", ["Abidjan", "Yamoussoukro", "Bouake", "Daloa"]),
    ("Burkina Faso", ["Ouagadougou", "Bobo-Dioulasso", "Koudougou", "Banfora"]) ]

/-- Dict access `city_options[country]` (line 872): the city choices the
`st.selectbox("🏙️ Ville", ...)` widget offers for a given country. -/
def city_options_lookup (country : String) : Option (List String) :=
  (city_options.find? (fun p => p.1 == country)).map (fun p => p.2)

/-- The month list of the `st.selectbox("🗓️ Mois", ...)` widget (line 873). -/
def month_list : List String :=
  ["Mai", "Juin", "Juillet", "Août", "Septembre", "Octobre"]

/-- `month_map` dict literal (line 880). `none` models a `KeyError`. -/
def month_map (m : String) : Option Nat :=
  if m = "Mai" then some 0
  else if m = "Juin" then some 1
  else if m = "Juillet" then some 2
  else if m = "Août" then some 3
  else if m = "Septembre" then some 4
  else if m = "Octobre" then some 5
  else none

/-- `all_cities` list literal (lines 881-883). -/
def all_cities : List String :=
  ["Dakar", "Thies", "Saint-Louis", "Ziguinchor", "Bamako", "Sikasso", "Kayes", "Mopti",
   "Conakry", "Nzerekore", "Kindia", "Labe", "Abidjan", "Yamoussoukro", "Bouake", "Daloa",
   "Ouagadougou", "Bobo-Dioulasso", "Koudougou", "Banfora"]

/-- `city_map = {c: i for i, c in enumerate(all_cities)}` (line 884), accessed
as `city_map[city]`: position of the city in `all_cities`, `KeyError` (`none`)
when the city is absent. -/
def city_map (c : String) : Option Nat :=
  all_cities.findIdx? (fun x => x == c)

/-- `country_map` dict literal (line 885). -/
def country_map (c : String) : Option Nat :=
  if c = "Senegal" then some 0
  else if c = "Mali" then some 1
  else if c = "Guinea" then some 2
  else if c = "Ivory Coast" then some 3
  else if c = "Burkina Faso" then some 4
  else none

/-- The feature vector `input_data` (lines 892-895):
`[country_map[country], city_map[city], month_map[month], temperature,
humidity, rainfall, previous_cases]`.  A `KeyError` in any lookup propagates
(the surrounding `try` catches it), modelled by `none`. -/
def input_data (country city month : String) (temperature humidity rainfall previous_cases : ℚ) :
    Option (List ℚ) :=
  match country_map country, city_map city, month_map month with
  | some ci, some cy, some mi =>
      some [(ci : ℚ), (cy : ℚ), (mi : ℚ), temperature, humidity, rainfall, previous_cases]
  | _, _, _ => none

/-! ## Forecast post-processor (app.py lines 898-902, 928, 991) -/

/-- `population_factor` dict lookup (line 899). -/
def population_factor (population : String) : Option ℚ :=
  if population = "Petite (<50k)" then some (7/10)
  else if population = "Moyenne (50k-200k)" then some 1
  else if population = "Grande (>200k)" then some (3/2)
  else none

/-- `healthcare_factor = 1.2 - (healthcare_index / 10)` (line 900), read over
exact rationals (the idealized value; `healthcare_factor_float` below gives
the binary64 value the program computes). -/
def healthcare_factor (healthcare_index : ℚ) : ℚ :=
  12/10 - healthcare_index / 10

/-- Python's `int()` on a real number truncates toward zero. -/
def pyInt (q : ℚ) : ℤ :=
  if 0 ≤ q then ⌊q⌋ else ⌈q⌉

/-- `final_prediction = max(0, int(base_prediction * population_factor *
healthcare_factor))` (line 902). -/
def final_prediction (base_prediction pf hf : ℚ) : ℤ :=
  max 0 (pyInt (base_prediction * pf * hf))

/-- `risk_level` (line 928): `"Faible" if p < 20 else "Modéré" if p < 50 else
"Élevé"` — Low / Moderate / High. -/
def risk_level (prediction : ℤ) : String :=
  if prediction < 20 then "Faible" else if prediction < 50 then "Modéré" else "Élevé"

/-- Forecast model confidence heuristic `min(95, 75 + healthcare_index*2)`
(line 991). -/
def forecast_confidence_score (healthcare_index : ℤ) : ℤ :=
  min 95 (75 + healthcare_index * 2)

/-! ## Binary64 semantics of the post-processor arithmetic (app.py lines 898-902)

The post-processor runs in Python floats (IEEE-754 binary64).  Exact
rationals above idealize that arithmetic; where the claim hinges on the
computed value itself, the float semantics is modelled here: each operation
is the exact rational operation followed by binary64 rounding. -/

/-- Round a rational to the nearest integer, ties to even. -/
def rnearest_even (m : ℚ) : ℤ :=
  if m - ⌊m⌋ < 1/2 then ⌊m⌋
  else if 1/2 < m - ⌊m⌋ then ⌊m⌋ + 1
  else if 2 ∣ ⌊m⌋ then ⌊m⌋ else ⌊m⌋ + 1

/-- IEEE-754 binary64 rounding of an exact rational: round to nearest with a
53-bit significand, ties to even.  Overflow and subnormal thresholds are
ignored — irrelevant at the magnitudes the post-processor computes. -/
def float64_round (q : ℚ) : ℚ :=
  if q = 0 then 0
  else
    (rnearest_even (q * 2 ^ ((52 : ℤ) - Int.log 2 |q|)) : ℚ) * 2 ^ (Int.log 2 |q| - 52)

/-- Binary64 multiplication. -/
def fmul (x y : ℚ) : ℚ := float64_round (x * y)

/-- Binary64 subtraction. -/
def fsub (x y : ℚ) : ℚ := float64_round (x - y)

/-- Binary64 (true) division, as Python's `/`. -/
def fdiv (x y : ℚ) : ℚ := float64_round (x / y)

/-- The binary64 value of the Python literal `1.2` (line 900):
5404319552844595/2^52, slightly below 6/5. -/
def lit_1_2 : ℚ := float64_round (12/10)

/-- `healthcare_factor = 1.2 - (healthcare_index / 10)` (line 900) under the
program's float semantics. -/
def healthcare_factor_float (healthcare_index : ℚ) : ℚ :=
  fsub lit_1_2 (fdiv healthcare_index 10)

/-- `final_prediction = max(0, int(base_prediction * population_factor *
healthcare_factor))` (line 902) under the program's float semantics
(left-associated products, each rounded to binary64). -/
def final_prediction_float (base_prediction pf hf : ℚ) : ℤ :=
  max 0 (pyInt (fmul (fmul base_prediction pf) hf))

/-! ## Forecast session state (app.py lines 36-37, 57-60, 877-917) -/

/-- The `forecast_result` dict stored in `st.session_state` (lines 905-911). -/
structure ForecastResult where
  prediction : ℤ
  city : String
  country : String
  month : String
  timestamp : Nat
deriving DecidableEq

/-- The forecast-related slice of `st.session_state`
(`forecast_done`, `forecast_result`; lines 36-37). -/
structure ForecastState where
  forecast_done : Bool
  forecast_result : Option ForecastResult
deriving DecidableEq

/-- `initialize_session_state` defaults for the forecast slice (lines 36-37). -/
def init_forecast_state : ForecastState :=
  { forecast_done := false, forecast_result := none }

/-- `reset_forecast_state` (lines 57-60). -/
def reset_forecast_state (_s : ForecastState) : ForecastState :=
  { forecast_done := false, forecast_result := none }

/-- The `"🔮 Générer la Prévision"` button handler (lines 877-917).  `predict`
is the opaque regressor `models['forecast_model'].predict` restricted to a
single row.  Any exception (e.g. a `KeyError` from a mapping lookup) is caught
by the `except` branch, which only displays an error: the session state is
returned unchanged. -/
def generate_forecast (s : ForecastState) (predict : List ℚ → ℚ)
    (country city month : String) (temperature humidity rainfall previous_cases : ℚ)
    (population : String) (healthcare_index : ℚ) (now : Nat) : ForecastState :=
  match input_data country city month temperature humidity rainfall previous_cases,
        population_factor population with
  | some features, some pf =>
      let base_prediction := predict features
      let hf := healthcare_factor healthcare_index
      let fp := final_prediction base_prediction pf hf
      { forecast_done := true,
        forecast_result := some ⟨fp, city, country, month, now⟩ }
  | _, _ => s

/-! ## Content fingerprinting (app.py lines 45-47)

`get_image_hash(image)` returns `hashlib.md5(image.tobytes()).hexdigest()`.
MD5 (RFC 1321, as implemented by `hashlib.md5`) is embedded below over byte
lists, with 32-bit words as `Nat` reduced `% 2^32`. -/

/-- 32-bit left rotation of `x < 2^32` by `n ≤ 32` bits. -/
def rotl32 (x n : Nat) : Nat :=
  (x * 2 ^ n + x / 2 ^ (32 - n)) % 4294967296

/-- MD5 round function F (rounds 0-15): `(B ∧ C) ∨ (¬B ∧ D)`. -/
def md5_F (b c d : Nat) : Nat := (b &&& c) ||| ((4294967295 - b) &&& d)

/-- MD5 round function G (rounds 16-31): `(B ∧ D) ∨ (C ∧ ¬D)`. -/
def md5_G (b c d : Nat) : Nat := (b &&& d) ||| (c &&& (4294967295 - d))

/-- MD5 round function H (rounds 32-47): `B ⊕ C ⊕ D`. -/
def md5_H (b c d : Nat) : Nat := b ^^^ c ^^^ d

/-- MD5 round function I (rounds 48-63): `C ⊕ (B ∨ ¬D)`. -/
def md5_I (b c d : Nat) : Nat := c ^^^ (b ||| (4294967295 - d))

/-- MD5 per-round additive constants `K[0..63]` (RFC 1321). -/
def md5_K : List Nat :=
  [0xd76aa478, 0xe8c7b756, 0x242070db, 0xc1bdceee,
   0xf57c0faf, 0x4787c62a, 0xa8304613, 0xfd469501,
   0x698098d8, 0x8b44f7af, 0xffff5bb1, 0x895cd7be,
   0x6b901122, 0xfd987193, 0xa679438e, 0x49b40821,
   0xf61e2562, 0xc040b340, 0x265e5a51, 0xe9b6c7aa,
   0xd62f105d, 0x02441453, 0xd8a1e681, 0xe7d3fbc8,
   0x21e1cde6, 0xc33707d6, 0xf4d50d87, 0x455a14ed,
   0xa9e3e905, 0xfcefa3f8, 0x676f02d9, 0x8d2a4c8a,
   0xfffa3942, 0x8771f681, 0x6d9d6122, 0xfde5380c,
   0xa4beea44, 0x4bdecfa9, 0xf6bb4b60, 0xbebfbc70,
   0x289b7ec6, 0xeaa127fa, 0xd4ef3085, 0x04881d05,
   0xd9d4d039, 0xe6db99e5, 0x1fa27cf8, 0xc4ac5665,
   0xf4292244, 0x432aff97, 0xab9423a7, 0xfc93a039,
   0x655b59c3, 0x8f0ccc92, 0xffeff47d, 0x85845dd1,
   0x6fa87e4f, 0xfe2ce6e0, 0xa3014314, 0x4e0811a1,
   0xf7537e82, 0xbd3af235, 0x2ad7d2bb, 0xeb86d391]

/-- MD5 per-round left-rotation amounts `S[0..63]` (RFC 1321). -/
def md5_S : List Nat :=
  [7, 12, 17, 22, 7, 12, 17, 22, 7, 12, 17, 22, 7, 12, 17, 22,
   5, 9, 14, 20, 5, 9, 14, 20, 5, 9, 14, 20, 5, 9, 14, 20,
   4, 11, 16, 23, 4, 11, 16, 23, 4, 11, 16, 23, 4, 11, 16, 23,
   6, 10, 15, 21, 6, 10, 15, 21, 6, 10, 15, 21, 6, 10, 15, 21]

/-- The four 32-bit MD5 chaining words. -/
structure MD5State where
  a : Nat
  b : Nat
  c : Nat
  d : Nat
deriving DecidableEq

/-- MD5 initial chaining values. -/
def md5_init : MD5State :=
  ⟨0x67452301, 0xefcdab89, 0x98badcfe, 0x10325476⟩

/-- One of the 64 MD5 rounds on a 16-word message block `M`. -/
def md5_step (M : List Nat) (st : MD5State) (i : Nat) : MD5State :=
  let f := if i < 16 then md5_F st.b st.c st.d
           else if i < 32 then md5_G st.b st.c st.d
           else if i < 48 then md5_H st.b st.c st.d
           else md5_I st.b st.c st.d
  let g := if i < 16 then i
           else if i < 32 then (5 * i + 1) % 16
           else if i < 48 then (3 * i + 5) % 16
           else (7 * i) % 16
  let tmp := (st.a + f + md5_K.getD i 0 + M.getD g 0) % 4294967296
  { a := st.d,
    b := (st.b + rotl32 tmp (md5_S.getD i 0)) % 4294967296,
    c := st.b,
    d := st.c }

/-- Process one 512-bit block: 64 rounds, then add to the chaining state. -/
def md5_processBlock (st : MD5State) (M : List Nat) : MD5State :=
  let e := (List.range 64).foldl (md5_step M) st
  ⟨(st.a + e.a) % 4294967296, (st.b + e.b) % 4294967296,
   (st.c + e.c) % 4294967296, (st.d + e.d) % 4294967296⟩

/-- Little-endian 32-bit word read at byte offset `off` (missing bytes are 0,
which never occurs on whole blocks). -/
def md5_leWord (bytes : List Nat) (off : Nat) : Nat :=
  bytes.getD off 0 + 256 * bytes.getD (off + 1) 0 +
  65536 * bytes.getD (off + 2) 0 + 16777216 * bytes.getD (off + 3) 0

/-- The 16 little-endian words of the `bi`-th 64-byte block. -/
def md5_block (bytes : List Nat) (bi : Nat) : List Nat :=
  (List.range 16).map (fun i => md5_leWord bytes (64 * bi + 4 * i))

/-- MD5 padding: append `0x80`, zero-pad to 56 mod 64 bytes, then the
bit length as a 64-bit little-endian integer. -/
def md5_pad (msg : List Nat) : List Nat :=
  msg ++ [128] ++ List.replicate ((119 - msg.length % 64) % 64) 0 ++
  (List.range 8).map (fun i => msg.length * 8 / 2 ^ (8 * i) % 256)

/-- Serialize a 32-bit word to 4 little-endian bytes. -/
def toLE32bytes (n : Nat) : List Nat :=
  [n % 256, n / 256 % 256, n / 65536 % 256, n / 16777216 % 256]

/-- The 16-byte MD5 digest of a byte sequence. -/
def md5_digest (msg : List Nat) : List Nat :=
  let padded := md5_pad msg
  let final := (List.range (padded.length / 64)).foldl
    (fun st bi => md5_processBlock st (md5_block padded bi)) md5_init
  toLE32bytes final.a ++ toLE32bytes final.b ++ toLE32bytes final.c ++ toLE32bytes final.d

/-- Lower-case hexadecimal digit: code point 48 + n for 0-9, 87 + n
(so 97 = the first lower-case letter) for 10-15. -/
def hexDigit (n : Nat) : Char :=
  if n < 10 then Char.ofNat (48 + n) else Char.ofNat (87 + n)

/-- `hexdigest()`: the digest as a 32-character lower-case hex string. -/
def hexdigest (msg : List Nat) : String :=
  String.mk ((md5_digest msg).flatMap (fun b => [hexDigit (b / 16), hexDigit (b % 16)]))

/-- `get_image_hash(image) = hashlib.md5(image.tobytes()).hexdigest()`
(lines 45-47), as a function of the image's raw bytes. -/
def get_image_hash (image_bytes : List Nat) : String :=
  hexdigest image_bytes

/-! ## Detection session (app.py lines 27-55, 87-100, 634-728, 798-800) -/

/-- The detection-related slice of `st.session_state` (lines 30-34):
`analysis_done`, `prediction_result`, `confidence_score`,
`analyzed_image_hash`, `analysis_timestamp`. -/
structure DetectionState where
  analysis_done : Bool
  prediction_result : Option ℚ
  confidence_score : Option ℚ
  analyzed_image_hash : Option String
  analysis_timestamp : Option Nat
deriving DecidableEq

/-- `initialize_session_state` defaults for the detection slice (lines 29-34). -/
def init_detection_state : DetectionState :=
  { analysis_done := false, prediction_result := none, confidence_score := none,
    analyzed_image_hash := none, analysis_timestamp := none }

/-- `reset_analysis_state` (lines 49-55). -/
def reset_analysis_state (_s : DetectionState) : DetectionState :=
  { analysis_done := false, prediction_result := none, confidence_score := none,
    analyzed_image_hash := none, analysis_timestamp := none }

/-- `process_image_prediction(image, model)` (lines 87-100), returning the
triple `(prediction, confidence, error)`.  The `predict` argument stands for
the whole `try` block — preprocessing plus the opaque classifier — whose
outcome is either a raw score or a raised exception message; on exception the
function returns `(None, None, str(e))`, fabricating no score. -/
def process_image_prediction (predict : Except String ℚ) :
    Option ℚ × Option ℚ × Option String :=
  match predict with
  | Except.ok p => (some p, some (max p (1 - p)), none)
  | Except.error e => (none, none, some e)

/-- `prediction >= 0.5` (line 742): the presentation-layer positive/negative
classification rule. -/
def is_detection_positive (prediction : ℚ) : Bool :=
  prediction ≥ 1/2

/-- The new-image guard of the upload handler (lines 638-643): compute
`current_image_hash`; if `not analysis_done or analyzed_image_hash !=
current_image_hash`, call `reset_analysis_state`. -/
def upload_step (s : DetectionState) (current_image_hash : String) : DetectionState :=
  if s.analysis_done = false ∨ s.analyzed_image_hash ≠ some current_image_hash then
    reset_analysis_state s
  else s

/-- The `"🧠 Analyser avec l'IA"` button body (lines 670-728): run
`process_image_prediction`; `if error:` display it and leave the session
untouched, `else:` commit `prediction_result` / `confidence_score` /
`analyzed_image_hash` / `analysis_done` / `analysis_timestamp`
(lines 712-720).  Returns the new state and the surfaced error, if any. -/
def analyze_click (s : DetectionState) (current_image_hash : String)
    (predict : Except String ℚ) (now : Nat) : DetectionState × Option String :=
  let r := process_image_prediction predict
  match r.2.2 with
  | some e => (s, some e)
  | none =>
      ({ analysis_done := true, prediction_result := r.1, confidence_score := r.2.1,
         analyzed_image_hash := some current_image_hash, analysis_timestamp := some now },
       none)

/-- One full script run of the detection tab with an uploaded image
(lines 634-728): hash the image, apply the new-image guard, then — only when
`analysis_done` is false (line 657) — offer the analyse button; `click` says
whether it was pressed.  Returns the final state, whether the classifier was
invoked, and the surfaced error, if any. -/
def script_run (s : DetectionState) (image_bytes : List Nat) (click : Bool)
    (predict : Except String ℚ) (now : Nat) : DetectionState × Bool × Option String :=
  let current_image_hash := get_image_hash image_bytes
  let s1 := upload_step s current_image_hash
  if s1.analysis_done then (s1, false, none)
  else if click then
    let r := analyze_click s1 current_image_hash predict now
    (r.1, true, r.2)
  else (s1, false, none)

/-- The session invariant of spec §3, relative to the (pure) end-to-end
classifier `classify` mapping image bytes to the inference outcome:
`prediction_result` and `confidence_score` are non-null iff
`analysis_done`, and in that case the stored hash is the fingerprint of an
image whose classification produced exactly the stored score and derived
confidence. -/
def SessionInv (classify : List Nat → Except String ℚ) (s : DetectionState) : Prop :=
  (s.analysis_done = true ↔
    s.prediction_result.isSome = true ∧ s.confidence_score.isSome = true) ∧
  (s.analysis_done = true →
    ∃ b p, classify b = Except.ok p ∧
      s.analyzed_image_hash = some (get_image_hash b) ∧
      s.prediction_result = some p ∧
      s.confidence_score = some (max p (1 - p)))

/-! ## Helper lemmas -/

/-- After the clamp at 0, Python's truncating `int()` agrees with `floor`ting:
truncation and floor differ only below zero, where both are clamped away. -/
theorem max_zero_pyInt_eq_max_zero_floor (q : ℚ) : max 0 (pyInt q) = max 0 ⌊q⌋ := by
  unfold pyInt
  by_cases h : 0 ≤ q
  · rw [if_pos h]
  · rw [if_neg h]
    push_neg at h
    have hc : ⌈q⌉ ≤ (0 : ℤ) := Int.ceil_le.mpr (by exact_mod_cast h.le)
    have hf : ⌊q⌋ ≤ (0 : ℤ) := Int.floor_nonpos h.le
    rw [max_eq_left hc, max_eq_left hf]

/-- The dict `month_map` agrees with position in `month_list` on its keys. -/
theorem month_map_indexOf : ∀ m ∈ month_list,
    month_map m = some (month_list.indexOf m) ∧
    month_list.get? (month_list.indexOf m) = some m := by decide

/-- The dict `country_map` agrees with position in `countries` on its keys. -/
theorem country_map_indexOf : ∀ c ∈ countries,
    country_map c = some (countries.indexOf c) ∧
    countries.get? (countries.indexOf c) = some c := by decide

/-- The dict `city_map` agrees with position in `all_cities` on its keys. -/
theorem city_map_indexOf : ∀ c ∈ all_cities,
    city_map c = some (all_cities.indexOf c) ∧
    all_cities.get? (all_cities.indexOf c) = some c := by decide

/-- Every `city_options` entry has its country in `countries` and its cities
in `all_cities`. -/
theorem city_options_sub : ∀ p ∈ city_options,
    p.1 ∈ countries ∧ ∀ c ∈ p.2, c ∈ all_cities := by decide

/-- `Int.log 2` is pinned down by a bracketing pair of powers of two. -/
theorem int_log2_eq_of (q : ℚ) (e : ℤ) (hq : 0 < q)
    (h1 : (2:ℚ)^e ≤ q) (h2 : q < (2:ℚ)^(e+1)) : Int.log 2 q = e := by
  have hle : e ≤ Int.log 2 q :=
    (Int.zpow_le_iff_le_log one_lt_two hq).mp (by exact_mod_cast h1)
  have hlt : Int.log 2 q < e + 1 :=
    (Int.lt_zpow_iff_log_lt one_lt_two hq).mp (by exact_mod_cast h2)
  omega

/-- Nearest-even rounding, case where the value sits below the midpoint. -/
theorem rnearest_even_eq_down (m : ℚ) (n : ℤ) (h1 : (n:ℚ) ≤ m) (h2 : m < (n:ℚ) + 1/2) :
    rnearest_even m = n := by
  have hfl : ⌊m⌋ = n := Int.floor_eq_iff.mpr ⟨h1, by linarith⟩
  unfold rnearest_even
  rw [hfl, if_pos (by linarith)]

/-- Nearest-even rounding, case where the value sits above the midpoint. -/
theorem rnearest_even_eq_up (m : ℚ) (n : ℤ) (h1 : (n:ℚ) + 1/2 < m) (h2 : m < (n:ℚ) + 1) :
    rnearest_even m = n + 1 := by
  have hfl : ⌊m⌋ = n := Int.floor_eq_iff.mpr ⟨by linarith, by linarith⟩
  unfold rnearest_even
  rw [hfl, if_neg (by linarith), if_pos (by linarith)]

/-- Evaluation scheme for `float64_round` at a concrete positive rational:
supply the binade exponent `e`, the rounded 53-bit significand `n` and the
resulting value `r`. -/
theorem float64_round_eq (q : ℚ) (e n : ℤ) (r : ℚ) (hq : 0 < q)
    (h1 : (2:ℚ)^e ≤ q) (h2 : q < (2:ℚ)^(e+1))
    (hn : rnearest_even (q * 2 ^ ((52 : ℤ) - e)) = n)
    (hr : (n:ℚ) * 2 ^ (e - (52:ℤ)) = r) :
    float64_round q = r := by
  have hlog : Int.log 2 |q| = e := by
    rw [abs_of_pos hq]
    exact int_log2_eq_of q e hq h1 h2
  unfold float64_round
  rw [if_neg (ne_of_gt hq), hlog, hn, hr]

/-- The float healthcare factor at healthcare index 10: the binary64 result
of `1.2 - 1.0` is 900719925474099/2^52 = 0.19999999999999996, just below the
exact 1/5. -/
theorem healthcare_factor_float_ten :
    healthcare_factor_float 10 = 900719925474099 / 4503599627370496 := by
  have hlit : lit_1_2 = 5404319552844595 / 4503599627370496 := by
    unfold lit_1_2
    exact float64_round_eq _ 0 5404319552844595 _ (by norm_num) (by norm_num) (by norm_num)
      (rnearest_even_eq_down _ _ (by norm_num) (by norm_num)) (by norm_num)
  have hdiv : fdiv 10 10 = 1 := by
    unfold fdiv
    rw [show (10:ℚ)/10 = 1 by norm_num]
    exact float64_round_eq _ 0 4503599627370496 _ (by norm_num) (by norm_num) (by norm_num)
      (rnearest_even_eq_down _ _ (by norm_num) (by norm_num)) (by norm_num)
  unfold healthcare_factor_float fsub
  rw [hlit, hdiv,
    show (5404319552844595/4503599627370496 - 1 : ℚ) = 900719925474099/4503599627370496
      by norm_num]
  exact float64_round_eq _ (-3) 7205759403792792 _ (by norm_num) (by norm_num) (by norm_num)
    (rnearest_even_eq_down _ _ (by norm_num) (by norm_num)) (by norm_num)

/-- The float post-processor value at (30, Large, healthcare 10):
`45 * 0.19999999999999996` rounds to 8.999999999999998, which `int()`
truncates to 8. -/
theorem final_prediction_float_eight :
    final_prediction_float 30 (3/2) (healthcare_factor_float 10) = 8 := by
  have hm1 : fmul 30 (3/2) = 45 := by
    unfold fmul
    rw [show (30:ℚ) * (3/2) = 45 by norm_num]
    exact float64_round_eq _ 5 6333186975989760 _ (by norm_num) (by norm_num) (by norm_num)
      (rnearest_even_eq_down _ _ (by norm_num) (by norm_num)) (by norm_num)
  have hm2 : fmul 45 (900719925474099 / 4503599627370496) =
      5066549580791807 / 562949953421312 := by
    unfold fmul
    rw [show (45:ℚ) * (900719925474099 / 4503599627370496) =
      40532396646334455 / 4503599627370496 by norm_num]
    exact float64_round_eq _ 3 5066549580791807 _ (by norm_num) (by norm_num) (by norm_num)
      ((rnearest_even_eq_up _ 5066549580791806 (by norm_num) (by norm_num)).trans
        (by norm_num))
      (by norm_num)
  unfold final_prediction_float
  rw [healthcare_factor_float_ten, hm1, hm2]
  unfold pyInt
  rw [if_pos (by norm_num : (0:ℚ) ≤ 5066549580791807 / 562949953421312)]
  rw [show (⌊(5066549580791807 / 562949953421312 : ℚ)⌋ : ℤ) = 8 from
    Int.floor_eq_iff.mpr ⟨by norm_num, by norm_num⟩]
  decide

/-! ## Claim theorems -/

/-- C1 (counterexample): requesting `country = "Mali"` with the Senegal-only
city `"Dakar"` is NOT rejected by the encoding: `input_data` succeeds —
`"Dakar"` is silently mapped to index 0 of the global city list — and the
forecast handler mutates the `ForecastSession` (sets `forecast_done`), so no
`ValidationFailure` is raised. -/
theorem mali_dakar_not_rejected :
    input_data "Mali" "Dakar" "Mai" 30 70 120 20 =
      some [1, 0, 0, 30, 70, 120, 20] ∧
    (generate_forecast init_forecast_state (fun _ => 30) "Mali" "Dakar" "Mai"
      30 70 120 20 "Grande (>200k)" 10 0).forecast_done = true ∧
    generate_forecast init_forecast_state (fun _ => 30) "Mali" "Dakar" "Mai"
      30 70 120 20 "Grande (>200k)" 10 0 ≠ init_forecast_state := by
  have hdone : (generate_forecast init_forecast_state (fun _ => 30) "Mali" "Dakar" "Mai"
      30 70 120 20 "Grande (>200k)" 10 0).forecast_done = true := rfl
  refine ⟨by decide, hdone, fun h => ?_⟩
  rw [h] at hdone
  simp [init_forecast_state] at hdone

/-- C1 (amended): the encoder performs no city/country consistency check: any
city of the global 20-city list is mapped to its global index regardless of
the selected country, so `country = "Mali", city = "Dakar"` encodes
successfully (cityIdx 0) and the forecast completes, mutating the session.
City/country consistency is enforced only upstream, by the city selectbox
offering exactly the selected country's cities (`city_options[country]`),
which does not contain `"Dakar"` for `"Mali"`. -/
theorem mali_dakar_silently_mapped :
    city_options_lookup "Mali" = some ["Bamako", "Sikasso", "Kayes", "Mopti"] ∧
    "Dakar" ∉ ["Bamako", "Sikasso", "Kayes", "Mopti"] ∧
    city_map "Dakar" = some 0 ∧
    input_data "Mali" "Dakar" "Mai" 30 70 120 20 =
      some [1, 0, 0, 30, 70, 120, 20] ∧
    (generate_forecast init_forecast_state (fun _ => 30) "Mali" "Dakar" "Mai"
      30 70 120 20 "Grande (>200k)" 10 0).forecast_done = true := by
  refine ⟨by decide, by decide, by decide, by decide, rfl⟩

/-- Contrast value under exact (real-number) arithmetic, the reading the
spec's example takes: with `basePrediction = 30`, tier Large (1.5) and
`healthcareIndex = 10` the idealized healthcare factor is exactly 1/5 and
`floor(30 * 1.5 * 0.2) = 9`.  The program's float arithmetic computes 8
instead — see the binary64 theorems below. -/
theorem forecast_base30_exact_arithmetic :
    population_factor "Grande (>200k)" = some (3/2) ∧
    healthcare_factor 10 = 1/5 ∧
    final_prediction 30 (3/2) (healthcare_factor 10) = 9 ∧
    risk_level (final_prediction 30 (3/2) (healthcare_factor 10)) = "Faible" := by
  have hf : healthcare_factor 10 = 1/5 := by norm_num [healthcare_factor]
  have hp : final_prediction 30 (3/2) (healthcare_factor 10) = 9 := by
    rw [hf]
    show max 0 (pyInt (30 * (3/2) * (1/5))) = 9
    norm_num [pyInt]
  refine ⟨rfl, hf, hp, ?_⟩
  rw [hp]
  rfl

/-- C2 (counterexample): under the binary64 float arithmetic the program
actually performs at line 902, the post-processor at basePrediction 30,
tier Large (1.5), healthcareIndex 10 computes 8, not the claimed 9:
`1.2 - (10/10)` is 0.19999999999999996 (= 900719925474099/2^52, below 0.2),
`30 * 1.5 * that` rounds to 8.999999999999998, and the truncating `int()`
yields 8. -/
theorem forecast_base30_float_not_nine :
    final_prediction_float 30 (3/2) (healthcare_factor_float 10) = 8 ∧
    final_prediction_float 30 (3/2) (healthcare_factor_float 10) ≠ 9 := by
  refine ⟨final_prediction_float_eight, ?_⟩
  rw [final_prediction_float_eight]
  decide

/-- C2 (amended): with basePrediction 30, tier Large (1.5) and healthcare
index 10, the float healthcare factor is 900719925474099/2^52
(0.19999999999999996, slightly below the ideal 0.2), the predicted case
count is 8, and the risk level is Low ("Faible"); the spec's idealized
`floor(30 * 1.5 * 0.2) = 9` arises only under exact arithmetic. -/
theorem forecast_base30_large_h10_float :
    healthcare_factor_float 10 = 900719925474099 / 4503599627370496 ∧
    final_prediction_float 30 (3/2) (healthcare_factor_float 10) = 8 ∧
    risk_level (final_prediction_float 30 (3/2) (healthcare_factor_float 10)) =
      "Faible" := by
  refine ⟨healthcare_factor_float_ten, final_prediction_float_eight, ?_⟩
  rw [final_prediction_float_eight]
  rfl

/-- C5: for every valid forecast request (country listed, city in that
country's set, month listed), the encoder yields exactly the 7-element vector
`[countryIdx, cityIdx, monthIdx, temperature, humidity, rainfall,
previousCases]`, where each index is the position in its fixed list
(5 countries, 20 cities — the concatenation of all countries' city lists in
country order — and 6 months, all duplicate-free hence with stable, unique
indices). -/
theorem encode_fixed_feature_vector (country city month : String) (cl : List String)
    (hc : (country, cl) ∈ city_options) (hcity : city ∈ cl) (hm : month ∈ month_list)
    (t h r pc : ℚ) :
    countries.length = 5 ∧ all_cities.length = 20 ∧ month_list.length = 6 ∧
    countries.Nodup ∧ all_cities.Nodup ∧ month_list.Nodup ∧
    all_cities = (city_options.map (fun p => p.2)).flatten ∧
    input_data country city month t h r pc =
      some [(countries.indexOf country : ℚ), (all_cities.indexOf city : ℚ),
            (month_list.indexOf month : ℚ), t, h, r, pc] ∧
    countries.get? (countries.indexOf country) = some country ∧
    all_cities.get? (all_cities.indexOf city) = some city ∧
    month_list.get? (month_list.indexOf month) = some month := by
  obtain ⟨hcountry, hsub⟩ := city_options_sub _ hc
  have hac : city ∈ all_cities := hsub city hcity
  obtain ⟨hcm, hcg⟩ := country_map_indexOf country hcountry
  obtain ⟨hym, hyg⟩ := city_map_indexOf city hac
  obtain ⟨hmm, hmg⟩ := month_map_indexOf month hm
  refine ⟨by decide, by decide, by decide, by decide, by decide, by decide, by decide,
    ?_, hcg, hyg, hmg⟩
  simp [input_data, hcm, hym, hmm]

/-- C5 witness: the request (Senegal, Thies, Juin) encodes to indices
(0, 1, 1) followed by the four numeric inputs. -/
theorem encode_fixed_feature_vector_witness :
    countries.length = 5 ∧ all_cities.length = 20 ∧ month_list.length = 6 ∧
    countries.Nodup ∧ all_cities.Nodup ∧ month_list.Nodup ∧
    all_cities = (city_options.map (fun p => p.2)).flatten ∧
    input_data "Senegal" "Thies" "Juin" 30 70 120 20 =
      some [(countries.indexOf "Senegal" : ℚ), (all_cities.indexOf "Thies" : ℚ),
            (month_list.indexOf "Juin" : ℚ), 30, 70, 120, 20] ∧
    countries.get? (countries.indexOf "Senegal") = some "Senegal" ∧
    all_cities.get? (all_cities.indexOf "Thies") = some "Thies" ∧
    month_list.get? (month_list.indexOf "Juin") = some "Juin" :=
  encode_fixed_feature_vector "Senegal" "Thies" "Juin"
    ["Dakar", "Thies", "Saint-Louis", "Ziguinchor"]
    (by decide) (by decide) (by decide) 30 70 120 20

/-- C6: for every base prediction (negative ones included) and every valid
population tier and healthcare index, the post-processed case count equals
`max(0, floor(basePrediction * populationFactor * healthcareFactor))` — the
truncating `int()` agrees with `floor` once clamped — and is never negative. -/
theorem predicted_cases_nonneg (base : ℚ) (population : String) (pf : ℚ)
    (_hpf : population_factor population = some pf)
    (hi : ℚ) (_h1 : 1 ≤ hi) (_h10 : hi ≤ 10) :
    final_prediction base pf (healthcare_factor hi) =
      max 0 ⌊base * pf * healthcare_factor hi⌋ ∧
    0 ≤ final_prediction base pf (healthcare_factor hi) := by
  constructor
  · unfold final_prediction
    exact max_zero_pyInt_eq_max_zero_floor _
  · exact le_max_left 0 _

/-- C6 witness: a negative raw model output (-7) with tier Large and
healthcare index 5 is clamped to a non-negative count. -/
theorem predicted_cases_nonneg_witness :
    (final_prediction (-7) (3/2) (healthcare_factor 5) =
      max 0 ⌊(-7 : ℚ) * (3/2) * healthcare_factor 5⌋ ∧
    0 ≤ final_prediction (-7) (3/2) (healthcare_factor 5)) :=
  predicted_cases_nonneg (-7) "Grande (>200k)" (3/2) rfl 5 (by norm_num) (by norm_num)

/-- C7: for every raw score in [0,1] the derived confidence is
`max(rawScore, 1 - rawScore)`, lies in [1/2, 1], and reaches 1 exactly at the
extremes 0 and 1. -/
theorem confidence_derivation_bounds (p : ℚ) (h0 : 0 ≤ p) (h1 : p ≤ 1) :
    process_image_prediction (Except.ok p) = (some p, some (max p (1 - p)), none) ∧
    1/2 ≤ max p (1 - p) ∧ max p (1 - p) ≤ 1 ∧
    (max p (1 - p) = 1 ↔ p = 0 ∨ p = 1) := by
  refine ⟨rfl, ?_, ?_, ?_, ?_⟩
  · rcases le_total p (1/2) with h | h
    · exact le_max_of_le_right (by linarith)
    · exact le_max_of_le_left h
  · exact max_le h1 (by linarith)
  · intro hmax
    rcases max_cases p (1 - p) with ⟨he, _⟩ | ⟨he, _⟩
    · right; rw [he] at hmax; exact hmax
    · left; rw [he] at hmax; linarith
  · rintro (rfl | rfl)
    · rw [show (1 : ℚ) - 0 = 1 by ring]; exact max_eq_right (by norm_num)
    · rw [show (1 : ℚ) - 1 = 0 by ring]; exact max_eq_left (by norm_num)

/-- C7 witness at rawScore 3/4: confidence 3/4, inside [1/2, 1], not 1. -/
theorem confidence_derivation_bounds_witness :
    (process_image_prediction (Except.ok (3/4)) =
      (some (3/4), some (max (3/4) (1 - 3/4)), none) ∧
    1/2 ≤ max (3/4) (1 - (3/4 : ℚ)) ∧ max (3/4) (1 - (3/4 : ℚ)) ≤ 1 ∧
    (max (3/4) (1 - (3/4 : ℚ)) = 1 ↔ (3/4 : ℚ) = 0 ∨ (3/4 : ℚ) = 1)) :=
  confidence_derivation_bounds (3/4) (by norm_num) (by norm_num)

/-- C8: an inference failure fabricates no score (`(None, None, error)`),
surfaces the underlying cause, and leaves every session field exactly as it
was at the time of the call; at whole-script granularity, a failing analysis
click leaves the session in its post-upload (pre-analysis) state. -/
theorem inference_failure_preserves_session (s : DetectionState) (h e : String)
    (image_bytes : List Nat) (now : Nat)
    (hready : (upload_step s (get_image_hash image_bytes)).analysis_done = false) :
    process_image_prediction (Except.error e) = (none, none, some e) ∧
    analyze_click s h (Except.error e) now = (s, some e) ∧
    script_run s image_bytes true (Except.error e) now =
      (upload_step s (get_image_hash image_bytes), true, some e) := by
  refine ⟨rfl, rfl, ?_⟩
  simp [script_run, hready, analyze_click, process_image_prediction]

/-- C8 witness: a failing analysis on a fresh session surfaces "boom" and
mutates nothing. -/
theorem inference_failure_preserves_session_witness :
    process_image_prediction (Except.error "boom") = (none, none, some "boom") ∧
    analyze_click init_detection_state "h0" (Except.error "boom") 7 =
      (init_detection_state, some "boom") ∧
    script_run init_detection_state [] true (Except.error "boom") 7 =
      (upload_step init_detection_state (get_image_hash []), true, some "boom") :=
  inference_failure_preserves_session init_detection_state "h0" "boom" [] 7 rfl

/-- C3: re-submitting an image whose fingerprint equals the one stored in a
completed session leaves the whole session record unchanged and never invokes
the classifier again, whether or not the (absent) analyse button is pressed. -/
theorem resubmit_same_fingerprint_noop (s : DetectionState) (image_bytes : List Nat)
    (click : Bool) (predict : Except String ℚ) (now : Nat)
    (hdone : s.analysis_done = true)
    (hhash : s.analyzed_image_hash = some (get_image_hash image_bytes)) :
    script_run s image_bytes click predict now = (s, false, none) := by
  simp [script_run, upload_step, hdone, hhash]

/-- C3 witness: a completed session holding the fingerprint of the empty image
is untouched by re-submitting that image and clicking. -/
theorem resubmit_same_fingerprint_noop_witness :
    script_run
      ⟨true, some (1/2), some (1/2), some (get_image_hash []), some 0⟩
      [] true (Except.ok 1) 0 =
    (⟨true, some (1/2), some (1/2), some (get_image_hash []), some 0⟩, false, none) :=
  resubmit_same_fingerprint_noop _ [] true _ 0 rfl rfl

/-- C4: (i) the freshly initialized session satisfies the invariant — score
and confidence non-null iff `analysis_done`, and then the stored hash is the
fingerprint of the exact input whose classification produced them; (ii) reset
preserves it; (iii) a full script run (upload guard, optional analysis via the
classifier `classify`) preserves it; (iv) submitting an image whose
fingerprint differs from a completed session's stored one clears score and
confidence; (v) from a non-complete state, `analysis_done` can become true
only through a clicked, successful analysis. -/
theorem detection_session_invariant (classify : List Nat → Except String ℚ)
    (s : DetectionState) (image_bytes bytesB : List Nat) (click : Bool) (now : Nat) :
    SessionInv classify init_detection_state ∧
    (SessionInv classify s → SessionInv classify (reset_analysis_state s)) ∧
    (SessionInv classify s →
      SessionInv classify (script_run s image_bytes click (classify image_bytes) now).1) ∧
    (s.analysis_done = true → s.analyzed_image_hash ≠ some (get_image_hash bytesB) →
      (upload_step s (get_image_hash bytesB)).analysis_done = false ∧
      (upload_step s (get_image_hash bytesB)).prediction_result = none ∧
      (upload_step s (get_image_hash bytesB)).confidence_score = none) ∧
    (∀ res : Except String ℚ, s.analysis_done = false →
      (script_run s image_bytes click res now).1.analysis_done = true →
      click = true ∧ ∃ p, res = Except.ok p) := by
  have hreset : ∀ t : DetectionState, SessionInv classify (reset_analysis_state t) := by
    intro t
    constructor
    · simp [reset_analysis_state]
    · intro hdone
      simp [reset_analysis_state] at hdone
  have hinit : SessionInv classify init_detection_state := by
    constructor
    · simp [init_detection_state]
    · intro hdone
      simp [init_detection_state] at hdone
  refine ⟨hinit, fun _ => hreset s, ?_, ?_, ?_⟩
  · intro hinv
    unfold script_run
    set h := get_image_hash image_bytes with hh
    by_cases hcond : s.analysis_done = false ∨ s.analyzed_image_hash ≠ some h
    · simp only [upload_step]
      rw [if_pos hcond]
      simp only [reset_analysis_state]
      rcases click with _ | _
      · exact hreset s
      · simp only [Bool.false_eq_true, if_false, if_true]
        cases hC : classify image_bytes with
        | error e =>
            simp only [analyze_click, process_image_prediction, hC]
            exact hreset s
        | ok p =>
            simp only [analyze_click, process_image_prediction, hC]
            constructor
            · simp
            · intro _
              exact ⟨image_bytes, p, hC, rfl, rfl, rfl⟩
    · simp only [upload_step]
      rw [if_neg hcond]
      push_neg at hcond
      obtain ⟨hdone, _⟩ := hcond
      simp only [Bool.not_eq_false] at hdone
      rw [hdone]
      simpa using hinv
  · intro hdone hne
    simp only [upload_step]
    rw [if_pos (Or.inr hne)]
    exact ⟨rfl, rfl, rfl⟩
  · intro res hdone hafter
    unfold script_run at hafter
    simp only [upload_step] at hafter
    rw [if_pos (Or.inl hdone)] at hafter
    simp only [reset_analysis_state] at hafter
    rcases click with _ | _
    · simp at hafter
    · simp only [Bool.false_eq_true, if_false, if_true] at hafter
      cases hC : res with
      | error e =>
          rw [hC] at hafter
          simp [analyze_click, process_image_prediction] at hafter
      | ok p => exact ⟨rfl, p, rfl⟩

set_option maxRecDepth 1000000 in
/-- C4 witness: the invariant holds initially; invalidation by a different
image clears a completed session's score and confidence; from a fresh state a
successful clicked analysis is what sets `analysis_done`. -/
theorem detection_session_invariant_witness :
    SessionInv (fun _ => Except.ok (1/2)) init_detection_state ∧
    SessionInv (fun _ => Except.ok (1/2))
      (reset_analysis_state
        ⟨true, some (1/2), some (1/2), some (get_image_hash []), some 0⟩) ∧
    ((upload_step ⟨true, some (1/2), some (1/2), some (get_image_hash []), some 0⟩
        (get_image_hash [7])).analysis_done = false ∧
     (upload_step ⟨true, some (1/2), some (1/2), some (get_image_hash []), some 0⟩
        (get_image_hash [7])).prediction_result = none ∧
     (upload_step ⟨true, some (1/2), some (1/2), some (get_image_hash []), some 0⟩
        (get_image_hash [7])).confidence_score = none) ∧
    (true = true ∧ ∃ p, (Except.ok (1/2) : Except String ℚ) = Except.ok p) := by
  have hA := detection_session_invariant (fun _ => Except.ok (1/2))
    ⟨true, some (1/2), some (1/2), some (get_image_hash []), some 0⟩ [] [7] true 0
  have hB := detection_session_invariant (fun _ => Except.ok (1/2))
    init_detection_state [] [7] true 0
  have hsw : SessionInv (fun _ => Except.ok (1/2))
      ⟨true, some (1/2), some (1/2), some (get_image_hash []), some 0⟩ := by
    refine ⟨by simp, fun _ => ⟨[], 1/2, rfl, rfl, rfl, ?_⟩⟩
    norm_num
  refine ⟨hB.1, hA.2.1 hsw, hA.2.2.2.1 rfl ?_, hB.2.2.2.2 (Except.ok (1/2)) rfl rfl⟩
  have hne : get_image_hash [] ≠ get_image_hash [7] := by decide
  exact fun hc => hne (Option.some.inj hc)

/-- The MD5 digest always consists of exactly 16 bytes. -/
theorem md5_digest_length (msg : List Nat) : (md5_digest msg).length = 16 := by
  unfold md5_digest
  simp [toLE32bytes]

/-- Hex-encoding two characters per byte doubles the length. -/
theorem hex_pairs_length (l : List Nat) :
    (l.flatMap (fun b => [hexDigit (b / 16), hexDigit (b % 16)])).length = 2 * l.length := by
  induction l with
  | nil => rfl
  | cons x xs ih => simp [List.flatMap_cons, ih]; omega

set_option maxRecDepth 1000000 in
/-- Sanity check of the MD5 embedding against the reference digest of
the three-byte message "abc". -/
theorem md5_abc_reference :
    get_image_hash [97, 98, 99] = "900150983cd24fb0d6963f7d28e17f72" := by decide

/-- C10: `get_image_hash` is a pure total function of the raw bytes: it is
deterministic (byte-identical inputs always fingerprint identically,
independent of call count), and it never fails — every byte sequence gets a
well-formed 32-character hex digest. -/
theorem fingerprint_deterministic_total :
    (∀ b1 b2 : List Nat, b1 = b2 → get_image_hash b1 = get_image_hash b2) ∧
    (∀ b : List Nat, (get_image_hash b).length = 32) := by
  constructor
  · intro b1 b2 h
    rw [h]
  · intro b
    show (String.mk _).length = 32
    rw [show ∀ l : List Char, (String.mk l).length = l.length from fun _ => rfl]
    rw [hex_pairs_length, md5_digest_length]

/-- C10 witness: determinism and the 32-character digest shape at the empty
byte sequence. -/
theorem fingerprint_deterministic_total_witness :
    get_image_hash [] = get_image_hash [] ∧ (get_image_hash []).length = 32 :=
  ⟨fingerprint_deterministic_total.1 [] [] rfl,
   fingerprint_deterministic_total.2 []⟩
